import Mathlib

/-!
Verification of the api-maker repository's option-resolution and
request-dispatch pipeline.

The definitions below are a shallow embedding of the TypeScript source:
`deepMerge`/`makeLogMessage` from `src/lib/utils.ts`, and the `APIMaker`
class (`getMockHandler`, `on`/`off`, `create`, `createXHR`,
`getSharedRequestOptions`, `DEFAULTS`) from `src/lib`.

JavaScript values flowing through the merge are modelled by `JValue`.
Asynchronous functions collapse to pure functions (single-threaded
cooperative model); the external transports (`fetch`, `XMLHttpRequest`)
are parameters supplying their outcome, and the observable transport and
dispatch activity of a call is recorded as an explicit event list.
-/

set_option autoImplicit false

namespace ApiMaker

/-- A JavaScript runtime value, as far as the merge/dispatch pipeline can
observe it.  `vStream` stands for a `ReadableStream` instance (an object
with no own enumerable properties). -/
inductive JValue where
  | vNull
  | vBool (b : Bool)
  | vNum (n : Int)
  | vStr (s : String)
  | vArr (xs : List JValue)
  | vObj (kvs : List (String × JValue))
  | vStream
  deriving Repr

/-- `value && typeof value == "object"`: true exactly for truthy values of
typeof "object" (plain objects, arrays, other object instances such as
streams); `null` is falsy and all primitives have a different typeof. -/
def isObjTruthy : JValue → Bool
  | .vArr _ => true
  | .vObj _ => true
  | .vStream => true
  | _ => false

/-- Own enumerable entries of an array, `for (let key in ...)` style:
index keys "0", "1", ... as strings. -/
def arrEntries (i : Nat) : List JValue → List (String × JValue)
  | [] => []
  | x :: rest => (toString i, x) :: arrEntries (i + 1) rest

/-- Enumerable entries of a boxed string: index keys mapping to
one-character strings (`for..in` over a primitive string). -/
def strEntries (i : Nat) : List Char → List (String × JValue)
  | [] => []
  | c :: rest => (toString i, .vStr (String.mk [c])) :: strEntries (i + 1) rest

/-- The keys a `for (let key in object)` loop enumerates, with their
values.  Primitives other than strings enumerate nothing; `null` and
other falsy values are additionally skipped by the `if (!object)
continue` guard in `deepMerge`, and enumerate nothing here as well.
Stream objects have no own enumerable properties. -/
def jsEntries : JValue → List (String × JValue)
  | .vObj kvs => kvs
  | .vArr xs => arrEntries 0 xs
  | .vStr s => strEntries 0 s.data
  | _ => []

/-- First-match lookup in an object's entry list (the `key in out` /
`out[key]` operations; JS objects hold each key once). -/
def getVal : List (String × JValue) → String → Option JValue
  | [], _ => none
  | (k', v') :: rest, k => if k' = k then some v' else getVal rest k

/-- `out[key] = v`: update in place when the key is present (JS keeps the
original insertion position), append otherwise. -/
def setKey : List (String × JValue) → String → JValue → List (String × JValue)
  | [], k, v => [(k, v)]
  | (k', v') :: rest, k, v =>
    if k' = k then (k', v) :: rest else (k', v') :: setKey rest k v

/-- Plain overwrite-copy of an entry list into a fresh object.  This is
the first loop iteration of the recursive `deepMerge(out[key], value)`
call: merging the first argument's entries into the empty `out` never
finds an existing key, because a JS object enumerates each key exactly
once, so that loop is a plain copy. -/
def copyEntries (entries : List (String × JValue)) : List (String × JValue) :=
  entries.foldl (fun out kv => setKey out kv.1 kv.2) []

mutual

/-- Termination measure: weight of a value, counting only the parts the
recursive merge can descend into. -/
def jweight : JValue → Nat
  | .vObj kvs => 1 + lweight kvs
  | .vArr xs => 1 + aweight xs
  | _ => 0

/-- Termination measure of an entry list: one per entry plus the weight
of mergeable (truthy-object) values. -/
def lweight : List (String × JValue) → Nat
  | [] => 0
  | (_, v) :: rest => 1 + (if isObjTruthy v then jweight v else 0) + lweight rest

/-- Termination measure of an array's elements. -/
def aweight : List JValue → Nat
  | [] => 0
  | v :: rest => 1 + (if isObjTruthy v then jweight v else 0) + aweight rest

end

theorem lweight_arrEntries (xs : List JValue) : ∀ i, lweight (arrEntries i xs) = aweight xs := by
  induction xs with
  | nil => intro i; rfl
  | cons x rest ih => intro i; simp [arrEntries, lweight, aweight, ih]

theorem lweight_jsEntries_lt (v : JValue) (h : isObjTruthy v = true) :
    lweight (jsEntries v) < 1 + jweight v := by
  cases v with
  | vObj kvs => simp [jsEntries, jweight]; omega
  | vArr xs => simp [jsEntries, jweight, lweight_arrEntries]; omega
  | vStream => simp [jsEntries, jweight, lweight]
  | vNull => simp [isObjTruthy] at h
  | vBool b => simp [isObjTruthy] at h
  | vNum n => simp [isObjTruthy] at h
  | vStr s => simp [isObjTruthy] at h

/-- The body of `deepMerge` from `src/lib/utils.ts`, merging an entry
list into the accumulator `out`:

    for (let key in object) {
      const value = object[key];
      out[key] = key in out && value && typeof value == "object"
        ? deepMerge(out[key], value)
        : value;
    }

The recursive `deepMerge(out[key], value)` call is the binary instance of
the variadic function: a fresh `out`, the entries of `out[key]` merged in
(a plain copy, see `copyEntries`), then the entries of `value`. -/
def mergeInto : List (String × JValue) → List (String × JValue) → List (String × JValue)
  | out, [] => out
  | out, (k, v) :: rest =>
    mergeInto
      (match getVal out k with
       | some old =>
         if h : isObjTruthy v then
           setKey out k (.vObj (mergeInto (copyEntries (jsEntries old)) (jsEntries v)))
         else
           setKey out k v
       | none => setKey out k v)
      rest
termination_by _ l => lweight l
decreasing_by
  all_goals simp [lweight, *]
  all_goals (have hlt := lweight_jsEntries_lt v h; omega)

/-- `deepMerge(...objects)` from `src/lib/utils.ts`: fold the (possibly
`undefined`) arguments left to right into a fresh object; `undefined`
arguments are skipped by the `if (!object) continue` guard (the other
falsy values enumerate no keys, so the guard is otherwise inert). -/
def deepMerge (objects : List (Option JValue)) : JValue :=
  .vObj (objects.foldl
    (fun out o =>
      match o with
      | none => out
      | some v => mergeInto out (jsEntries v))
    [])

/-- The entries of a merged object (a `deepMerge` result is always a
plain object). -/
def objEntries : JValue → List (String × JValue)
  | .vObj kvs => kvs
  | _ => []

/-- The recursive binary `deepMerge(old, v)` call as a single value. -/
def mergePair (old v : JValue) : JValue :=
  .vObj (mergeInto (copyEntries (jsEntries old)) (jsEntries v))

example :
    deepMerge [some (.vObj [("a", .vNum 1)]), some (.vObj [("b", .vNum 2)])] =
      .vObj [("a", .vNum 1), ("b", .vNum 2)] := by
  simp [deepMerge, mergeInto, jsEntries, getVal, setKey, copyEntries]

example :
    deepMerge [some (.vObj [("a", .vArr [.vNum 1, .vNum 2])]),
               some (.vObj [("a", .vArr [.vNum 9])])] =
      .vObj [("a", .vObj [("0", .vNum 9), ("1", .vNum 2)])] := by
  simp [deepMerge, mergeInto, jsEntries, getVal, setKey, copyEntries, arrEntries,
    isObjTruthy]
  decide

/-! ### Lookup lemmas for the merge -/

theorem getVal_setKey_self (out : List (String × JValue)) (k : String) (v : JValue) :
    getVal (setKey out k v) k = some v := by
  induction out with
  | nil => simp [setKey, getVal]
  | cons kv rest ih =>
    obtain ⟨k', v'⟩ := kv
    by_cases hk : k' = k
    · simp [setKey, hk, getVal]
    · simp [setKey, hk, getVal, ih]

theorem getVal_setKey_ne (out : List (String × JValue)) (k k' : String) (v : JValue)
    (h : k ≠ k') : getVal (setKey out k v) k' = getVal out k' := by
  induction out with
  | nil => simp [setKey, getVal, h]
  | cons kv rest ih =>
    obtain ⟨k₀, v₀⟩ := kv
    by_cases hk : k₀ = k
    · subst hk
      simp [setKey, getVal, h]
    · simp [setKey, hk, getVal, ih]

theorem getVal_eq_none (l : List (String × JValue)) (k : String)
    (h : k ∉ l.map Prod.fst) : getVal l k = none := by
  induction l with
  | nil => rfl
  | cons kv rest ih =>
    obtain ⟨k', v'⟩ := kv
    simp only [List.map_cons, List.mem_cons] at h
    push_neg at h
    rw [getVal, if_neg (fun hh => h.1 hh.symm), ih h.2]

/-- Lookup after merging an entry list with pairwise-distinct keys into an
accumulator: a key absent from the incoming entries is untouched; a key
present with value `vb` ends up as `vb` when the key was fresh or `vb` is
not a truthy object, and as the recursive merge of the old value with
`vb` otherwise. -/
theorem getVal_mergeInto (b : List (String × JValue)) :
    ∀ out : List (String × JValue), (b.map Prod.fst).Nodup → ∀ k : String,
    getVal (mergeInto out b) k =
      match getVal b k with
      | none => getVal out k
      | some vb =>
        some (match getVal out k with
              | none => vb
              | some old => if isObjTruthy vb then mergePair old vb else vb) := by
  induction b with
  | nil =>
    intro out _ k
    simp [mergeInto, getVal]
  | cons kv rest ih =>
    intro out hnd k
    obtain ⟨k₁, v₁⟩ := kv
    simp only [List.map_cons, List.nodup_cons] at hnd
    obtain ⟨hk₁, hrest⟩ := hnd
    rw [mergeInto]
    rw [ih _ hrest k]
    by_cases hk : k₁ = k
    · subst hk
      have hrnone : getVal rest k₁ = none := getVal_eq_none rest k₁ hk₁
      rw [hrnone]
      simp only [getVal, if_pos rfl]
      cases hold : getVal out k₁ with
      | none => simp [hold, getVal_setKey_self]
      | some old =>
        by_cases hobj : isObjTruthy v₁
        · simp [hold, hobj, getVal_setKey_self, mergePair]
        · simp [hold, hobj, getVal_setKey_self]
    · have hgb : getVal ((k₁, v₁) :: rest) k = getVal rest k := by
        simp [getVal, hk]
      rw [hgb]
      have hout : getVal
          (match getVal out k₁ with
           | some old =>
             if h : isObjTruthy v₁ then
               setKey out k₁ (.vObj (mergeInto (copyEntries (jsEntries old)) (jsEntries v₁)))
             else setKey out k₁ v₁
           | none => setKey out k₁ v₁) k = getVal out k := by
        cases hold : getVal out k₁ with
        | none => exact getVal_setKey_ne out k₁ k v₁ hk
        | some old =>
          by_cases hobj : isObjTruthy v₁
          · simpa [hobj] using
              getVal_setKey_ne out k₁ k
                (.vObj (mergeInto (copyEntries (jsEntries old)) (jsEntries v₁))) hk
          · simpa [hobj] using getVal_setKey_ne out k₁ k v₁ hk
      rw [hout]

/-! ### C1: the deep-merge key rule -/

/-- **C1** (counterexample).  The claim says that when two sources map a
key to arrays, the later source's array replaces the earlier one
entirely.  On `deepMerge({a:[1,2]}, {a:[9]})` the code instead recurses
(`typeof [9] == "object"` is true) and merges the arrays index-wise into
a plain record: the key `"a"` ends up as `{"0": 9, "1": 2}`, not `[9]`. -/
theorem deepMerge_arrays_merged_not_replaced :
    getVal (objEntries (deepMerge
        [some (.vObj [("a", .vArr [.vNum 1, .vNum 2])]),
         some (.vObj [("a", .vArr [.vNum 9])])])) "a" =
      some (.vObj [("0", .vNum 9), ("1", .vNum 2)]) ∧
    getVal (objEntries (deepMerge
        [some (.vObj [("a", .vArr [.vNum 1, .vNum 2])]),
         some (.vObj [("a", .vArr [.vNum 9])])])) "a" ≠
      some (.vArr [.vNum 9]) := by
  constructor
  · simp [deepMerge, mergeInto, jsEntries, getVal, setKey, copyEntries, arrEntries,
      isObjTruthy, objEntries]
    decide
  · intro hcontra
    rw [(by simp [deepMerge, mergeInto, jsEntries, getVal, setKey, copyEntries,
          arrEntries, isObjTruthy, objEntries]; decide :
        getVal (objEntries (deepMerge
          [some (.vObj [("a", .vArr [.vNum 1, .vNum 2])]),
           some (.vObj [("a", .vArr [.vNum 9])])])) "a" =
          some (.vObj [("0", .vNum 9), ("1", .vNum 2)]))] at hcontra
    exact JValue.noConfusion (Option.some.inj hcontra)

/-- **C1** (amended).  `deepMerge` combines sources key-by-key; for a key
present in both an earlier and a later source, the later value is
deep-merged with the existing value whenever the later value is a truthy
object (a composite record, an array, or any other object), regardless
of the existing value's kind; only primitive and `null` later values
replace outright.  In particular arrays are merged index-wise (per
`deepMerge_arrays_merged_not_replaced`), not replaced. -/
theorem deepMerge_key_rule (a b : List (String × JValue))
    (ha : (a.map Prod.fst).Nodup) (hb : (b.map Prod.fst).Nodup) (k : String) :
    getVal (objEntries (deepMerge [some (.vObj a), some (.vObj b)])) k =
      match getVal a k, getVal b k with
      | none, none => none
      | some va, none => some va
      | none, some vb => some vb
      | some va, some vb => some (if isObjTruthy vb then mergePair va vb else vb) := by
  have h1 : ∀ k' : String, getVal (mergeInto [] a) k' = getVal a k' := by
    intro k'
    rw [getVal_mergeInto a [] ha k']
    cases getVal a k' <;> simp [getVal]
  have hshape : objEntries (deepMerge [some (.vObj a), some (.vObj b)]) =
      mergeInto (mergeInto [] a) b := by
    simp [deepMerge, objEntries, jsEntries, List.foldl]
  rw [hshape, getVal_mergeInto b (mergeInto [] a) hb k, h1]
  cases hga : getVal a k <;> cases hgb : getVal b k <;> simp

/-- Witness for `deepMerge_key_rule` at concrete records sharing the key
`"y"` with record values on both sides. -/
theorem deepMerge_key_rule_witness :
    getVal (objEntries (deepMerge
        [some (.vObj [("x", .vNum 1), ("y", .vObj [("n", .vNum 1)])]),
         some (.vObj [("y", .vObj [("m", .vNum 2)]), ("z", .vNum 3)])])) "y" =
      some (mergePair (.vObj [("n", .vNum 1)]) (.vObj [("m", .vNum 2)])) := by
  have h := deepMerge_key_rule
    [("x", .vNum 1), ("y", .vObj [("n", .vNum 1)])]
    [("y", .vObj [("m", .vNum 2)]), ("z", .vNum 3)]
    (by decide) (by decide) "y"
  simpa [getVal, isObjTruthy] using h

/-! ### The `APIMaker` class (`src/lib`) -/

/-- `makeLogMessage` from `src/lib/utils.ts`. -/
def makeLogMessage (message : String) : String :=
  "[api-maker]: " ++ message

/-- The raw `Response` object a successful `fetch` resolves with, as the
pipeline observes it: a status code and the payload its `json()` method
parses to (body extraction is an external collaborator). -/
structure Resp where
  status : Nat
  jsonVal : JValue

/-- `ResponseHandler`: `(response, requestURL, requestParams) => result`
(the `await` collapses in the single-threaded model). -/
def RespHandler : Type := Resp → String → JValue → JValue

/-- `MockObject`: `{ enabled?: boolean; handler?: (params) => result }`. -/
structure MockObject where
  enabled : Option Bool
  handler : Option (JValue → JValue)

/-- `sharedRequestOptions`: a static record or a zero-argument function
producing one. -/
inductive SharedOpts where
  | staticOpts (v : JValue)
  | computed (f : Unit → JValue)

/-- `getSharedRequestOptions` from `src/lib`: invoke the options when
they are a function, otherwise return them as given. -/
def getSharedRequestOptions : SharedOpts → JValue
  | .staticOpts v => v
  | .computed f => f ()

/-- `APIMakerConfig`: `{ base?, sharedRequestOptions?, defaultResponseHandler? }`. -/
structure APIMakerConfig where
  base : Option String
  sharedRequestOptions : Option SharedOpts
  defaultResponseHandler : Option RespHandler

/-- `APIMaker.DEFAULTS.requestInit = { method: "GET" }`. -/
def DEFAULTS_requestInit : JValue := .vObj [("method", .vStr "GET")]

/-- `APIMaker.DEFAULTS.responseHandler = (response) => response.json()`. -/
def DEFAULTS_responseHandler : RespHandler := fun response _ _ => response.jsonVal

/-- `getFullPath`: `new URL(path, this.config.base).toString()`.  URL
construction is an external collaborator; it is modelled as base-and-path
concatenation, which the claims do not distinguish from real URL
resolution. -/
def getFullPath (base : Option String) (path : String) : String :=
  base.getD "" ++ path

/-- Truthiness of `mock?.enabled` under optional chaining. -/
def mockEnabled (m : Option MockObject) : Bool :=
  (m.bind (·.enabled)).getD false

/-- `mock?.handler` under optional chaining. -/
def mockHandlerOf (m : Option MockObject) : Option (JValue → JValue) :=
  m.bind (·.handler)

/-- `getMockHandler` from `src/lib` (an exception becomes `.error`):

    if (this.MOCK_MODE_ENABLED || requestMock?.enabled || requestCreatorMock?.enabled) {
      const mockHandler = requestMock?.handler ?? requestCreatorMock?.handler;
      // don't throw error because if mock mode enabled, we try to return mock if possible
      if (this.MOCK_MODE_ENABLED) return mockHandler;
      if (!mockHandler) throw new Error(makeLogMessage("Mock handler is not provided"));
      return mockHandler;
    }
-/
def getMockHandler (mockMode : Bool) (requestMock requestCreatorMock : Option MockObject) :
    Except String (Option (JValue → JValue)) :=
  if mockMode || mockEnabled requestMock || mockEnabled requestCreatorMock then
    let mockHandler := (mockHandlerOf requestMock).orElse fun _ => mockHandlerOf requestCreatorMock
    if mockMode then .ok mockHandler
    else
      match mockHandler with
      | none => .error (makeLogMessage "Mock handler is not provided")
      | some f => .ok (some f)
  else .ok none

/-! #### Status handler registry -/

/-- Status handlers are identified by tokens (function references); the
registry `Record<number, Set<StatusEventHandler>>` maps a status code to
its insertion-ordered, duplicate-free handler list. -/
abbrev StatusRegistry : Type := List (Nat × List Nat)

/-- Key lookup `statusHandlers[status]`. -/
def lookupStatus : StatusRegistry → Nat → Option (List Nat)
  | [], _ => none
  | (s', hs) :: rest, s => if s' = s then some hs else lookupStatus rest s

/-- Replace the handler list stored under a present status key. -/
def updateStatus : StatusRegistry → Nat → List Nat → StatusRegistry
  | [], _, _ => []
  | (s', hs) :: rest, s, l => if s' = s then (s', l) :: rest else (s', hs) :: updateStatus rest s l

/-- `delete this.statusHandlers[status]`. -/
def removeStatus (reg : StatusRegistry) (s : Nat) : StatusRegistry :=
  reg.filter fun e => e.1 ≠ s

/-- `on(status, handler)` from `src/lib`:

    if (!this.statusHandlers[status]) this.statusHandlers[status] = new Set();
    this.statusHandlers[status].add(handler);
-/
def onStatus (reg : StatusRegistry) (status : Nat) (handler : Nat) : StatusRegistry :=
  match lookupStatus reg status with
  | some hs => updateStatus reg status (if handler ∈ hs then hs else hs ++ [handler])
  | none => reg ++ [(status, [handler])]

/-- `off(status, handler?)` from `src/lib`:

    if (handler) this.statusHandlers[status]?.delete(handler);
    else delete this.statusHandlers[status];
-/
def offStatus (reg : StatusRegistry) (status : Nat) (handler : Option Nat) : StatusRegistry :=
  match handler with
  | some h =>
    match lookupStatus reg status with
    | some hs => updateStatus reg status (hs.erase h)
    | none => reg
  | none => removeStatus reg status

/-! #### The fetch-variant route factory (`create`) -/

/-- The result of the route-definition function
`FetchRequestCreator`: `{ path, requestInit?, mock?, responseHandler? }`. -/
structure RouteDef where
  path : String
  requestInit : Option JValue
  mock : Option MockObject
  responseHandler : Option RespHandler

/-- Call-time options of a fetch-variant call:
`{ customRequestInit?, customResponseHandler?, mock? }`. -/
structure CallOptions where
  customRequestInit : Option JValue
  customResponseHandler : Option RespHandler
  mock : Option MockObject

/-- The resolved request options of a call (`create` and `createXHR`):

    deepMerge({},
      getSharedRequestOptions(this.config.sharedRequestOptions ?? APIMaker.DEFAULTS.requestInit),
      requestInit,
      options?.customRequestInit)
-/
def resolveRequestParams (cfg : APIMakerConfig)
    (requestInit customRequestInit : Option JValue) : JValue :=
  deepMerge
    [some (.vObj []),
     some (getSharedRequestOptions
       (cfg.sharedRequestOptions.getD (.staticOpts DEFAULTS_requestInit))),
     requestInit,
     customRequestInit]

/-- How a call can fail: a thrown `Error` (its message), or a rejection
propagated from the transport. -/
inductive CallErr where
  | thrown (msg : String)
  | transportErr
  deriving DecidableEq

/-- Observable activity of one fetch-variant call: the transport
invocation, each status-handler dispatch with its payload, and the final
response-handler application, in program order. -/
inductive FEvent where
  | fetchCall (url : String) (opts : JValue)
  | statusDispatch (id : Nat) (status : Nat) (respJson : JValue) (url : String) (opts : JValue)
  | respHandled

/-- One invocation of a fetcher produced by `create` (`src/lib`,
`create`): resolve the route definition, the response-handler chain, the
URL and the merged options, then consult the mock resolver, and only on
its `undefined` outcome perform the real request, dispatch the status
handlers for the response's exact status, and apply the effective
response handler.  `fetchFn` is the external `fetch` collaborator
(`none` = network rejection). -/
def createCall (cfg : APIMakerConfig) (mockMode : Bool) (reg : StatusRegistry)
    (requestCreator : JValue → RouteDef) (params : JValue) (options : Option CallOptions)
    (fetchFn : String → JValue → Option Resp) :
    Except CallErr JValue × List FEvent :=
  let route := requestCreator params
  let requestCreatorResponseHandler :=
    route.responseHandler.getD (cfg.defaultResponseHandler.getD DEFAULTS_responseHandler)
  let responseHandler :=
    (options.bind (·.customResponseHandler)).getD requestCreatorResponseHandler
  let requestURL := getFullPath cfg.base route.path
  let resolvedRequestParams :=
    resolveRequestParams cfg route.requestInit (options.bind (·.customRequestInit))
  match getMockHandler mockMode (options.bind (·.mock)) route.mock with
  | .error msg => (.error (.thrown msg), [])
  | .ok (some handler) => (.ok (handler params), [])
  | .ok none =>
    match fetchFn requestURL resolvedRequestParams with
    | none => (.error .transportErr, [.fetchCall requestURL resolvedRequestParams])
    | some response =>
      (.ok (responseHandler response requestURL resolvedRequestParams),
       .fetchCall requestURL resolvedRequestParams ::
         ((lookupStatus reg response.status).getD []).map
           (fun id => .statusDispatch id response.status response.jsonVal
             requestURL resolvedRequestParams) ++
         [.respHandled])

/-! ### C2: the option-resolution layers -/

/-- Modelled from the spec's words, for comparison with the code (claim
C2): the resolved options as the deep merge, in increasing precedence,
of four layers — built-in default `{method: "GET"}`, shared options,
route-defined options, call-time custom options. -/
def specFourLayerOptions (cfg : APIMakerConfig)
    (requestInit customRequestInit : Option JValue) : JValue :=
  deepMerge
    [some DEFAULTS_requestInit,
     some (getSharedRequestOptions (cfg.sharedRequestOptions.getD (.staticOpts (.vObj [])))),
     requestInit,
     customRequestInit]

/-- A configuration with non-empty shared options that do not set a
method, as in the `sharedRequestOptions` tests. -/
def sharedOnlyConfig : APIMakerConfig :=
  ⟨none, some (.staticOpts (.vObj [("credentials", .vStr "include")])), none⟩

/-- **C2** (counterexample).  With shared options `{credentials:
"include"}` configured and no route or call options, the code's resolved
options contain no `method` key at all — the built-in `{method: "GET"}`
participates only as a `??` fallback when `sharedRequestOptions` is
unset — whereas the claimed four-layer merge would put `method: "GET"`
in. -/
theorem resolveRequestParams_not_four_layer :
    getVal (objEntries (resolveRequestParams sharedOnlyConfig none none)) "method" = none ∧
    getVal (objEntries (specFourLayerOptions sharedOnlyConfig none none)) "method" =
      some (.vStr "GET") := by
  constructor
  · simp [resolveRequestParams, sharedOnlyConfig, deepMerge, mergeInto, jsEntries,
      getVal, setKey, copyEntries, isObjTruthy, objEntries, getSharedRequestOptions]
  · simp [specFourLayerOptions, sharedOnlyConfig, DEFAULTS_requestInit, deepMerge,
      mergeInto, jsEntries, getVal, setKey, copyEntries, isObjTruthy, objEntries,
      getSharedRequestOptions]

/-- An option layer that is either absent or a record (with distinct
keys) not defining `"method"`. -/
def noMethodLayer (o : Option JValue) : Prop :=
  o = none ∨ ∃ l, o = some (.vObj l) ∧ (l.map Prod.fst).Nodup ∧ getVal l "method" = none

/-- **C2** (amended).  The resolved request options are the deep merge,
in increasing precedence, of the shared options, the route-defined
options and the call-time options; the built-in default
`{method: "GET"}` substitutes for the shared options only when
`sharedRequestOptions` is unset — it is a fallback, not a fourth merge
layer.  Consequently the default method `GET` is present when no shared
options are configured and no higher layer overrides it (but not, in
general, when non-empty shared options are configured). -/
theorem resolveRequestParams_spec (cfg : APIMakerConfig) (ri cri : Option JValue) :
    (∀ s, cfg.sharedRequestOptions = some s →
      resolveRequestParams cfg ri cri =
        deepMerge [some (.vObj []), some (getSharedRequestOptions s), ri, cri]) ∧
    (cfg.sharedRequestOptions = none →
      resolveRequestParams cfg ri cri =
        deepMerge [some (.vObj []), some DEFAULTS_requestInit, ri, cri]) ∧
    (cfg.sharedRequestOptions = none → noMethodLayer ri → noMethodLayer cri →
      getVal (objEntries (resolveRequestParams cfg ri cri)) "method" =
        some (.vStr "GET")) := by
  have hbase : getVal (mergeInto (mergeInto [] []) (jsEntries DEFAULTS_requestInit))
      "method" = some (.vStr "GET") := by
    simp [DEFAULTS_requestInit, mergeInto, jsEntries, getVal, setKey, isObjTruthy]
  refine ⟨fun s hs => by simp [resolveRequestParams, hs], fun hs => by
    simp [resolveRequestParams, hs, getSharedRequestOptions], fun hs hri hcri => ?_⟩
  have hshape : objEntries (resolveRequestParams cfg ri cri) =
      (match cri with
       | none => id
       | some v => fun out => mergeInto out (jsEntries v))
      ((match ri with
        | none => id
        | some v => fun out => mergeInto out (jsEntries v))
       (mergeInto (mergeInto [] []) (jsEntries DEFAULTS_requestInit))) := by
    cases ri <;> cases cri <;>
      simp [resolveRequestParams, hs, getSharedRequestOptions, deepMerge, objEntries,
        jsEntries]
  rw [hshape]
  have step : ∀ (o : Option JValue), noMethodLayer o →
      ∀ out : List (String × JValue),
      getVal ((match o with
               | none => id
               | some v => fun out => mergeInto out (jsEntries v)) out) "method" =
        getVal out "method" := by
    intro o ho out
    rcases ho with rfl | ⟨l, rfl, hnd, hnone⟩
    · rfl
    · show getVal (mergeInto out l) "method" = getVal out "method"
      rw [getVal_mergeInto l out hnd "method", hnone]
  rw [step cri hcri, step ri hri, hbase]

/-- Witness for `resolveRequestParams_spec`: with no shared options, a
route layer `{headers: {...}}` and no call layer, the resolved options
carry the default method `GET`. -/
theorem resolveRequestParams_spec_witness :
    getVal (objEntries (resolveRequestParams ⟨none, none, none⟩
      (some (.vObj [("headers", .vObj [("Accept", .vStr "application/json")])])) none))
      "method" = some (.vStr "GET") :=
  (resolveRequestParams_spec ⟨none, none, none⟩
      (some (.vObj [("headers", .vObj [("Accept", .vStr "application/json")])])) none).2.2
    rfl
    (Or.inr ⟨_, rfl, by decide, by simp [getVal]⟩)
    (Or.inl rfl)

/-! ### C3/C4/C5: mock resolution in the fetch pipeline -/

/-- Recognizes the transport-invocation event. -/
def isFetchCall : FEvent → Bool
  | .fetchCall _ _ => true
  | _ => false

/-- A route definition with a path and nothing else, as in the tests'
`(id) => ({ path: "/users/" + id })`. -/
def userRoute : JValue → RouteDef := fun _ => ⟨"/users/1", none, none, none⟩

/-- A route identical to `userRoute` except for its path. -/
def otherRoute : JValue → RouteDef := fun _ => ⟨"/other", none, none, none⟩

/-- A transport that always resolves with status 200 and body
`{"name": "John Doe"}`, as stubbed in the tests. -/
def okFetch : String → JValue → Option Resp :=
  fun _ _ => some ⟨200, .vObj [("name", .vStr "John Doe")]⟩

/-- Call options asking for a mock (`mock: {enabled: true}`) without
supplying a handler. -/
def enabledNoHandlerOptions : Option CallOptions :=
  some ⟨none, none, some ⟨some true, none⟩⟩

/-- **C3** (counterexample).  Two departures from the claim.  (1) When
the global mock-mode flag is also true, a call whose mock descriptor
sets `enabled: true` without a handler does NOT reject: `getMockHandler`
returns `undefined` before reaching the throw, and the real transport is
invoked.  (2) When the call does reject (mock mode off), the thrown
message is the fixed string `"[api-maker]: Mock handler is not
provided"`, identical for routes with different paths — it does not name
the route/path. -/
theorem missing_mock_handler_claim_fails :
    (createCall ⟨none, none, none⟩ true [] userRoute .vNull
        enabledNoHandlerOptions okFetch).1 =
      .ok (.vObj [("name", .vStr "John Doe")]) ∧
    (createCall ⟨none, none, none⟩ true [] userRoute .vNull
        enabledNoHandlerOptions okFetch).2.countP (fun e => isFetchCall e) = 1 ∧
    (createCall ⟨none, none, none⟩ false [] userRoute .vNull
        enabledNoHandlerOptions okFetch).1 =
      .error (.thrown "[api-maker]: Mock handler is not provided") ∧
    (createCall ⟨none, none, none⟩ false [] otherRoute .vNull
        enabledNoHandlerOptions okFetch).1 =
      .error (.thrown "[api-maker]: Mock handler is not provided") := by
  refine ⟨?_, ?_, ?_, ?_⟩ <;>
    simp [createCall, getMockHandler, mockEnabled, mockHandlerOf, userRoute, otherRoute,
      enabledNoHandlerOptions, okFetch, makeLogMessage, DEFAULTS_responseHandler,
      lookupStatus, isFetchCall, List.countP_cons, getFullPath]

/-- **C3** (amended).  If the call-level or route-level mock descriptor
sets `enabled: true`, neither level supplies a handler, AND the global
mock-mode flag is off, the call rejects with the thrown error
`"[api-maker]: Mock handler is not provided"` (a fixed message that does
not name the route or path), and the real transport is never invoked:
the call produces no events at all. -/
theorem missing_mock_handler_rejects (cfg : APIMakerConfig) (reg : StatusRegistry)
    (creator : JValue → RouteDef) (params : JValue) (options : Option CallOptions)
    (fetchFn : String → JValue → Option Resp)
    (henabled : mockEnabled (options.bind (·.mock)) = true ∨
      mockEnabled (creator params).mock = true)
    (hch : mockHandlerOf (options.bind (·.mock)) = none)
    (hrh : mockHandlerOf (creator params).mock = none) :
    createCall cfg false reg creator params options fetchFn =
      (.error (.thrown (makeLogMessage "Mock handler is not provided")), []) := by
  rcases henabled with h | h <;>
    simp [createCall, getMockHandler, hch, hrh, Option.orElse, h]

/-- Witness for `missing_mock_handler_rejects`: a call with
`mock: {enabled: true}` and no handler anywhere, mock mode off. -/
theorem missing_mock_handler_rejects_witness :
    createCall ⟨none, none, none⟩ false [] userRoute .vNull
        enabledNoHandlerOptions okFetch =
      (.error (.thrown (makeLogMessage "Mock handler is not provided")), []) :=
  missing_mock_handler_rejects ⟨none, none, none⟩ [] userRoute .vNull
    enabledNoHandlerOptions okFetch
    (Or.inl (by simp [enabledNoHandlerOptions, mockEnabled]))
    (by simp [enabledNoHandlerOptions, mockHandlerOf])
    (by simp [userRoute, mockHandlerOf])

/-- Dispatch events are never transport invocations. -/
theorem countP_fetch_of_dispatch (ids : List Nat) (s : Nat) (j : JValue) (u : String)
    (o : JValue) :
    ((ids.map fun id => FEvent.statusDispatch id s j u o).countP
      fun e => isFetchCall e) = 0 := by
  induction ids with
  | nil => rfl
  | cons i rest ih => simp [List.countP_cons, isFetchCall, ih]

/-- **C4** (confirmed).  With the global mock-mode flag on and no mock
handler supplied at either the route level or the call level, the call
does not error (given a transport that responds) and the real transport
is invoked exactly once: global mock mode is advisory and falls through
to a real request. -/
theorem mock_mode_advisory (cfg : APIMakerConfig) (reg : StatusRegistry)
    (creator : JValue → RouteDef) (params : JValue) (options : Option CallOptions)
    (fetchFn : String → JValue → Option Resp)
    (hch : mockHandlerOf (options.bind (·.mock)) = none)
    (hrh : mockHandlerOf (creator params).mock = none)
    (hfetch : ∀ u o, (fetchFn u o).isSome) :
    ((createCall cfg true reg creator params options fetchFn).2.countP
      fun e => isFetchCall e) = 1 ∧
    ∀ e, (createCall cfg true reg creator params options fetchFn).1 ≠ .error e := by
  have hmock : getMockHandler true (options.bind (·.mock)) (creator params).mock =
      .ok none := by
    simp [getMockHandler, hch, hrh, Option.orElse]
  obtain ⟨resp, hresp⟩ := Option.isSome_iff_exists.mp
    (hfetch (getFullPath cfg.base (creator params).path)
      (resolveRequestParams cfg (creator params).requestInit
        (options.bind (·.customRequestInit))))
  constructor
  · simp [createCall, hmock, hresp, List.countP_cons, List.countP_append, isFetchCall,
      countP_fetch_of_dispatch]
  · intro e
    simp [createCall, hmock, hresp]

/-- Witness for `mock_mode_advisory`: mock mode on, no handlers,
transport stubbed to respond with status 200. -/
theorem mock_mode_advisory_witness :
    ((createCall ⟨none, none, none⟩ true [] userRoute .vNull none okFetch).2.countP
      fun e => isFetchCall e) = 1 ∧
    ∀ e, (createCall ⟨none, none, none⟩ true [] userRoute .vNull none okFetch).1 ≠
      .error e :=
  mock_mode_advisory ⟨none, none, none⟩ [] userRoute .vNull none okFetch
    (by simp [mockHandlerOf]) (by simp [userRoute, mockHandlerOf])
    (fun _ _ => rfl)

/-- **C5** (confirmed).  When the mock resolver yields a handler, the
call's result is that handler applied to the call's params and nothing
else happens: no transport invocation, no status dispatch, no response
handler.  The handler is the call-level one when present, else the
route-level one. -/
theorem mock_handler_short_circuits (cfg : APIMakerConfig) (mockMode : Bool)
    (reg : StatusRegistry) (creator : JValue → RouteDef) (params : JValue)
    (options : Option CallOptions) (fetchFn : String → JValue → Option Resp)
    (h : JValue → JValue)
    (hres : getMockHandler mockMode (options.bind (·.mock)) (creator params).mock =
      .ok (some h)) :
    createCall cfg mockMode reg creator params options fetchFn = (.ok (h params), []) ∧
    (mockHandlerOf (options.bind (·.mock)) = some h ∨
      (mockHandlerOf (options.bind (·.mock)) = none ∧
        mockHandlerOf (creator params).mock = some h)) := by
  refine ⟨by simp [createCall, hres], ?_⟩
  have hX : (mockHandlerOf (options.bind (·.mock))).orElse
      (fun _ => mockHandlerOf (creator params).mock) = some h := by
    simp only [getMockHandler] at hres
    split at hres
    · split at hres
      · exact Except.ok.inj hres
      · split at hres
        · exact absurd hres (by simp)
        · rename_i heq
          rw [heq]
          simpa using hres
    · exact absurd hres (by simp)
  cases hmm : mockHandlerOf (options.bind (·.mock)) with
  | some f =>
    rw [hmm] at hX
    simp only [Option.orElse] at hX
    exact Or.inl hX
  | none =>
    rw [hmm] at hX
    simp only [Option.orElse] at hX
    exact Or.inr ⟨rfl, hX⟩

/-- Witness for `mock_handler_short_circuits`: a route-level handler
with no call-level handler, activated by `enabled: true` at the call. -/
theorem mock_handler_short_circuits_witness :
    createCall ⟨none, none, none⟩ false []
        (fun _ => ⟨"/users/1", none, some ⟨none, some (fun _ => .vStr "MOCK")⟩, none⟩)
        .vNull enabledNoHandlerOptions okFetch =
      (.ok (.vStr "MOCK"), []) :=
  (mock_handler_short_circuits ⟨none, none, none⟩ false []
    (fun _ => ⟨"/users/1", none, some ⟨none, some (fun _ => .vStr "MOCK")⟩, none⟩)
    .vNull enabledNoHandlerOptions okFetch (fun _ => .vStr "MOCK")
    (by simp [getMockHandler, enabledNoHandlerOptions, mockEnabled, mockHandlerOf,
      Option.orElse])).1

/-! ### C6: the status-handler registry -/

theorem lookupStatus_updateStatus_self (reg : StatusRegistry) (s : Nat) (l l₀ : List Nat)
    (hmem : lookupStatus reg s = some l₀) :
    lookupStatus (updateStatus reg s l) s = some l := by
  induction reg with
  | nil => simp [lookupStatus] at hmem
  | cons e rest ih =>
    obtain ⟨s', hs⟩ := e
    by_cases h : s' = s
    · simp [updateStatus, lookupStatus, h]
    · simp [lookupStatus, h] at hmem
      simp [updateStatus, lookupStatus, h, ih hmem]

theorem lookupStatus_updateStatus_ne (reg : StatusRegistry) (s s' : Nat) (l : List Nat)
    (h : s' ≠ s) : lookupStatus (updateStatus reg s l) s' = lookupStatus reg s' := by
  induction reg with
  | nil => rfl
  | cons e rest ih =>
    obtain ⟨s₀, hs⟩ := e
    by_cases h₀ : s₀ = s
    · subst h₀
      have hne : ¬s₀ = s' := fun hh => h (hh.symm)
      simp [updateStatus, lookupStatus, hne]
    · simp [updateStatus, lookupStatus, h₀, ih]

theorem lookupStatus_removeStatus_self (reg : StatusRegistry) (s : Nat) :
    lookupStatus (removeStatus reg s) s = none := by
  induction reg with
  | nil => rfl
  | cons e rest ih =>
    obtain ⟨s₀, hs⟩ := e
    by_cases h₀ : s₀ = s
    · simpa [removeStatus, List.filter_cons, h₀] using ih
    · simpa [removeStatus, List.filter_cons, h₀, lookupStatus] using ih

theorem lookupStatus_removeStatus_ne (reg : StatusRegistry) (s s' : Nat) (h : s' ≠ s) :
    lookupStatus (removeStatus reg s) s' = lookupStatus reg s' := by
  induction reg with
  | nil => rfl
  | cons e rest ih =>
    obtain ⟨s₀, hs⟩ := e
    by_cases h₀ : s₀ = s
    · subst h₀
      have hne : ¬s₀ = s' := fun hh => h (hh.symm)
      simpa [removeStatus, List.filter_cons, lookupStatus, hne] using ih
    · by_cases h₁ : s₀ = s'
      · simp [removeStatus, List.filter_cons, h₀, lookupStatus, h₁, h]
      · simpa [removeStatus, List.filter_cons, h₀, lookupStatus, h₁] using ih

/-- **C6** (counterexample).  Removing the only handler registered under
status 200 with `off(200, handler)` leaves the registry mapping 200 to
an empty set — the status entry is NOT removed, contradicting the
claimed cleanup invariant (the code's `off(status, handler)` has no
empty-set pruning step). -/
theorem off_last_handler_keeps_entry :
    lookupStatus (offStatus (onStatus [] 200 7) 200 (some 7)) 200 = some [] ∧
    lookupStatus (offStatus (onStatus [] 200 7) 200 (some 7)) 200 ≠ none := by
  decide

/-- **C6** (amended).  `off(status)` with no handler removes the whole
status entry; `off(status, handler)` removes exactly that handler from
the status's set but keeps the entry, even when the set becomes empty
(no cleanup invariant); entries under other statuses are untouched. -/
theorem offStatus_spec (reg : StatusRegistry) (s : Nat) (h : Nat) :
    lookupStatus (offStatus reg s none) s = none ∧
    (∀ l, lookupStatus reg s = some l →
      lookupStatus (offStatus reg s (some h)) s = some (l.erase h)) ∧
    (∀ s', s' ≠ s → ∀ ho, lookupStatus (offStatus reg s ho) s' = lookupStatus reg s') := by
  refine ⟨lookupStatus_removeStatus_self reg s, fun l hl => ?_, fun s' hs' ho => ?_⟩
  · simp [offStatus, hl, lookupStatus_updateStatus_self reg s _ l hl]
  · cases ho with
    | none => exact lookupStatus_removeStatus_ne reg s s' hs'
    | some h' =>
      simp only [offStatus]
      cases hl : lookupStatus reg s with
      | none => rfl
      | some l => exact lookupStatus_updateStatus_ne reg s s' _ hs'

/-- Witness for `offStatus_spec`: removing handler 1 from
`{200 ↦ [1, 2], 404 ↦ [3]}` leaves `[2]` under 200 and `[3]` under
404; `off(200)` removes the 200 entry. -/
theorem offStatus_spec_witness :
    lookupStatus (offStatus [(200, [1, 2]), (404, [3])] 200 (some 1)) 200 = some [2] ∧
    lookupStatus (offStatus [(200, [1, 2]), (404, [3])] 200 (some 1)) 404 = some [3] ∧
    lookupStatus (offStatus [(200, [1, 2]), (404, [3])] 200 none) 200 = none := by
  have h := offStatus_spec [(200, [1, 2]), (404, [3])] 200 1
  refine ⟨?_, ?_, h.1⟩
  · have := h.2.1 [1, 2] (by decide)
    simpa using this
  · have := h.2.2 404 (by decide) (some 1)
    simpa using this

/-! ### C7/C8: status dispatch and the response handler -/

/-- The final URL of a call (`this.getFullPath(path)`). -/
def callURL (cfg : APIMakerConfig) (creator : JValue → RouteDef) (params : JValue) :
    String :=
  getFullPath cfg.base (creator params).path

/-- The final resolved options of a fetch-variant call. -/
def callResolvedParams (cfg : APIMakerConfig) (creator : JValue → RouteDef)
    (params : JValue) (options : Option CallOptions) : JValue :=
  resolveRequestParams cfg (creator params).requestInit
    (options.bind (·.customRequestInit))

/-- **C7** (confirmed).  For a completed real (non-mocked) request, the
call's observable activity is exactly: the transport invocation, then
one dispatch to each handler registered under the response's exact
status code — in registration order, each receiving the status, the
response payload, the final URL and the final resolved options — then
the response-handler application.  In particular every dispatched
handler is one registered under the response's status (none from any
other status), and all dispatches precede the response handler's
result. -/
theorem status_dispatch_exact (cfg : APIMakerConfig) (mockMode : Bool)
    (reg : StatusRegistry) (creator : JValue → RouteDef) (params : JValue)
    (options : Option CallOptions) (fetchFn : String → JValue → Option Resp)
    (resp : Resp)
    (hmock : getMockHandler mockMode (options.bind (·.mock)) (creator params).mock =
      .ok none)
    (hfetch : fetchFn (callURL cfg creator params)
      (callResolvedParams cfg creator params options) = some resp) :
    ((createCall cfg mockMode reg creator params options fetchFn).2 =
      .fetchCall (callURL cfg creator params)
          (callResolvedParams cfg creator params options) ::
        ((lookupStatus reg resp.status).getD []).map
          (fun id => .statusDispatch id resp.status resp.jsonVal
            (callURL cfg creator params)
            (callResolvedParams cfg creator params options)) ++
        [.respHandled]) ∧
    ∀ id st j u o,
      FEvent.statusDispatch id st j u o ∈
          (createCall cfg mockMode reg creator params options fetchFn).2 →
        st = resp.status ∧ id ∈ (lookupStatus reg resp.status).getD [] ∧
          j = resp.jsonVal ∧ u = callURL cfg creator params ∧
          o = callResolvedParams cfg creator params options := by
  have hev : (createCall cfg mockMode reg creator params options fetchFn).2 =
      .fetchCall (callURL cfg creator params)
          (callResolvedParams cfg creator params options) ::
        ((lookupStatus reg resp.status).getD []).map
          (fun id => .statusDispatch id resp.status resp.jsonVal
            (callURL cfg creator params)
            (callResolvedParams cfg creator params options)) ++
        [.respHandled] := by
    simp only [callURL, callResolvedParams] at hfetch
    simp [createCall, hmock, hfetch, callURL, callResolvedParams]
  refine ⟨hev, fun id st j u o hmem => ?_⟩
  rw [hev, List.cons_append] at hmem
  rcases List.mem_cons.mp hmem with h | hmem2
  · exact FEvent.noConfusion h
  rcases List.mem_append.mp hmem2 with hmap | hsing
  · obtain ⟨i, hi, hieq⟩ := List.mem_map.mp hmap
    cases hieq
    exact ⟨rfl, hi, rfl, rfl, rfl⟩
  · exact FEvent.noConfusion (List.mem_singleton.mp hsing)

/-- Witness for `status_dispatch_exact`: two handlers under 200, a 200
response; the events are the transport call, both dispatches, then the
response-handler application. -/
theorem status_dispatch_exact_witness :
    (createCall ⟨none, none, none⟩ false [(200, [1, 2])] userRoute .vNull none
        okFetch).2 =
      .fetchCall (callURL ⟨none, none, none⟩ userRoute .vNull)
          (callResolvedParams ⟨none, none, none⟩ userRoute .vNull none) ::
        (([1, 2] : List Nat)).map
          (fun id => .statusDispatch id 200 (.vObj [("name", .vStr "John Doe")])
            (callURL ⟨none, none, none⟩ userRoute .vNull)
            (callResolvedParams ⟨none, none, none⟩ userRoute .vNull none)) ++
        [.respHandled] := by
  have h := (status_dispatch_exact ⟨none, none, none⟩ false [(200, [1, 2])] userRoute
    .vNull none okFetch ⟨200, .vObj [("name", .vStr "John Doe")]⟩ rfl rfl).1
  simpa [lookupStatus] using h

/-- **C8** (confirmed).  For a completed real (non-mocked) request, the
call's result is the effective response handler — call-supplied if
present, else route-defined, else the config-level default, else the
built-in JSON handler — applied to the raw response, the final URL and
the final resolved options. -/
theorem response_handler_precedence (cfg : APIMakerConfig) (mockMode : Bool)
    (reg : StatusRegistry) (creator : JValue → RouteDef) (params : JValue)
    (options : Option CallOptions) (fetchFn : String → JValue → Option Resp)
    (resp : Resp)
    (hmock : getMockHandler mockMode (options.bind (·.mock)) (creator params).mock =
      .ok none)
    (hfetch : fetchFn (callURL cfg creator params)
      (callResolvedParams cfg creator params options) = some resp) :
    (createCall cfg mockMode reg creator params options fetchFn).1 =
      .ok (((options.bind (·.customResponseHandler)).getD
          ((creator params).responseHandler.getD
            (cfg.defaultResponseHandler.getD DEFAULTS_responseHandler)))
        resp (callURL cfg creator params)
        (callResolvedParams cfg creator params options)) := by
  simp only [callURL, callResolvedParams] at hfetch
  simp [createCall, hmock, hfetch, callURL, callResolvedParams]

/-- Witness for `response_handler_precedence`: with no handler at any
override level, the built-in JSON handler produces the parsed body. -/
theorem response_handler_precedence_witness :
    (createCall ⟨none, none, none⟩ false [] userRoute .vNull none okFetch).1 =
      .ok (.vObj [("name", .vStr "John Doe")]) := by
  have h := response_handler_precedence ⟨none, none, none⟩ false [] userRoute .vNull
    none okFetch ⟨200, .vObj [("name", .vStr "John Doe")]⟩ rfl rfl
  simpa [userRoute, DEFAULTS_responseHandler] using h

/-! ### The XHR-variant route factory (`createXHR`) -/

/-- An XHR response handler: `(xhr.response, requestURL, requestParams)
=> result` (the raw parsed response, not a `Response` object). -/
def XRespHandler : Type := JValue → String → JValue → JValue

/-- The result of an `XHRFetchRequestCreator`: like a fetch route
definition, but the response handler is required by the type. -/
structure XHRRouteDef where
  path : String
  requestInit : Option JValue
  mock : Option MockObject
  responseHandler : XRespHandler

/-- Call-time options of an XHR-variant call. -/
structure XHRCallOptions where
  customRequestInit : Option JValue
  customResponseHandler : Option XRespHandler
  mock : Option MockObject

/-- What invoking an `XHRFetcher` produces before `sendRequest` is
called: the route definition has been invoked, the options merged and
the response-handler choice made, and a fresh (unopened) transport
object exists — but the mock descriptors have not been consulted and
the transport has been neither opened nor sent.  The mock-mode flag is
not an input here: the returned closure reads it from the controller
only when `sendRequest` runs. -/
structure XHRPrep where
  params : JValue
  base : Option String
  path : String
  resolved : JValue
  responseHandler : XRespHandler
  callMock : Option MockObject
  routeMock : Option MockObject

/-- The route-invocation stage of `createXHR` (`src/lib`): everything
that happens before `sendRequest` is invoked. -/
def xhrRoute (cfg : APIMakerConfig) (creator : JValue → XHRRouteDef) (params : JValue)
    (options : Option XHRCallOptions) : XHRPrep :=
  let route := creator params
  { params := params
    base := cfg.base
    path := route.path
    resolved := resolveRequestParams cfg route.requestInit
      (options.bind (·.customRequestInit))
    responseHandler := (options.bind (·.customResponseHandler)).getD route.responseHandler
    callMock := options.bind (·.mock)
    routeMock := route.mock }

/-- How the external `XMLHttpRequest` settles once sent: a `loadend`
with a status and parsed response, or a terminal `error`/`abort`
event. -/
inductive XHROutcome where
  | loadend (status : Nat) (response : JValue)
  | errored
  | aborted

/-- Observable activity of one `sendRequest` invocation, in program
order. -/
inductive XEvent where
  | xhrOpen (method : JValue) (url : String)
  | setHeader (name value : String)
  | withCredentials
  | xhrSend (body : Option JValue)
  | xstatusDispatch (id : Nat) (status : Nat) (response : JValue) (url : String)
      (opts : JValue)
  | xresolved

/-- `body instanceof ReadableStream` on the resolved body. -/
def bodyIsStream : Option JValue → Bool
  | some .vStream => true
  | _ => false

/-- `resolvedRequestParams?.credentials === "include"`. -/
def isIncludeCred : Option JValue → Bool
  | some (.vStr s) => s = "include"
  | _ => false

/-- The header-translation loop: for every own enumerable entry of the
resolved `headers` when it is an object, set string values as transport
headers; non-string values are skipped silently. -/
def headerEvents (resolved : JValue) : List XEvent :=
  match getVal (objEntries resolved) "headers" with
  | some hv =>
    if isObjTruthy hv then
      (jsEntries hv).filterMap fun kv =>
        match kv.2 with
        | .vStr s => some (.setHeader kv.1 s)
        | _ => none
    else []
  | none => []

/-- The `sendRequest` closure of `createXHR` (`src/lib`): consult the
mock resolver with the mock-mode flag as read NOW; on a handler, return
its result with no transport activity; otherwise open the transport
(`resolvedRequestParams.method ?? DEFAULTS.requestInit.method`),
translate headers and credentials, reject streaming bodies with the
message string `makeLogMessage("Cannot send readable stream via
XMLHTTPRequest")` before sending, and otherwise send and settle from the
transport's outcome: on `loadend`, dispatch the status handlers for the
exact status and resolve with the response handler's result; on
`error`/`abort`, reject. -/
def xhrSendRequest (prep : XHRPrep) (mockMode : Bool) (reg : StatusRegistry)
    (outcome : XHROutcome) : Except CallErr JValue × List XEvent :=
  match getMockHandler mockMode prep.callMock prep.routeMock with
  | .error msg => (.error (.thrown msg), [])
  | .ok (some handler) => (.ok (handler prep.params), [])
  | .ok none =>
    let requestURL := getFullPath prep.base prep.path
    let methodV := (getVal (objEntries prep.resolved) "method").getD (.vStr "GET")
    let credEvs :=
      if isIncludeCred (getVal (objEntries prep.resolved) "credentials") then
        [XEvent.withCredentials]
      else []
    let body := getVal (objEntries prep.resolved) "body"
    let pre := XEvent.xhrOpen methodV requestURL :: headerEvents prep.resolved ++ credEvs
    if bodyIsStream body then
      (.error (.thrown (makeLogMessage "Cannot send readable stream via XMLHTTPRequest")),
       pre)
    else
      match outcome with
      | .errored => (.error .transportErr, pre ++ [.xhrSend body])
      | .aborted => (.error .transportErr, pre ++ [.xhrSend body])
      | .loadend status response =>
        (.ok (prep.responseHandler response requestURL prep.resolved),
         pre ++ [.xhrSend body] ++
           ((lookupStatus reg status).getD []).map
             (fun id => .xstatusDispatch id status response requestURL prep.resolved) ++
           [.xresolved])

/-! ### C9: streaming bodies are rejected before send -/

/-- No `xhrSend` event among the pre-send events. -/
theorem xhrSend_not_mem_pre (resolved : JValue) (m : JValue) (u : String)
    (credEvs : List XEvent) (hcred : credEvs = [XEvent.withCredentials] ∨ credEvs = [])
    (b : Option JValue) :
    XEvent.xhrSend b ∉ XEvent.xhrOpen m u :: headerEvents resolved ++ credEvs := by
  intro hb
  rcases List.mem_cons.mp hb with h | hb2
  · exact XEvent.noConfusion h
  rcases List.mem_append.mp hb2 with h | h
  · rcases hh : getVal (objEntries resolved) "headers" with _ | hv
    · simp [headerEvents, hh] at h
    · by_cases hobj : isObjTruthy hv
      · simp only [headerEvents, hh, hobj, if_true] at h
        obtain ⟨⟨k0, v0⟩, _, hf⟩ := List.mem_filterMap.mp h
        cases v0 <;> simp at hf
      · simp [headerEvents, hh, hobj] at h
  · rcases hcred with rfl | rfl
    · rcases List.mem_singleton.mp h with h
      exact XEvent.noConfusion h
    · exact absurd h (List.not_mem_nil _)

/-- **C9** (confirmed).  When an XHR-variant call reaches the real send
path (no mock handler resolved) and its resolved options' body is a
streaming object, `sendRequest` rejects with the message
`"[api-maker]: Cannot send readable stream via XMLHTTPRequest"` and no
`send` is ever issued on the transport, so no network activity occurs
for that call. -/
theorem streaming_body_rejected (cfg : APIMakerConfig)
    (creator : JValue → XHRRouteDef) (params : JValue)
    (options : Option XHRCallOptions) (mockMode : Bool) (reg : StatusRegistry)
    (outcome : XHROutcome)
    (hmock : getMockHandler mockMode (xhrRoute cfg creator params options).callMock
      (xhrRoute cfg creator params options).routeMock = .ok none)
    (hbody : getVal (objEntries (xhrRoute cfg creator params options).resolved) "body" =
      some .vStream) :
    (xhrSendRequest (xhrRoute cfg creator params options) mockMode reg outcome).1 =
      .error (.thrown (makeLogMessage "Cannot send readable stream via XMLHTTPRequest")) ∧
    ∀ b, XEvent.xhrSend b ∉
      (xhrSendRequest (xhrRoute cfg creator params options) mockMode reg outcome).2 := by
  have hsend : xhrSendRequest (xhrRoute cfg creator params options) mockMode reg outcome =
      (.error (.thrown (makeLogMessage "Cannot send readable stream via XMLHTTPRequest")),
       XEvent.xhrOpen
           ((getVal (objEntries (xhrRoute cfg creator params options).resolved)
             "method").getD (.vStr "GET"))
           (getFullPath (xhrRoute cfg creator params options).base
             (xhrRoute cfg creator params options).path) ::
         headerEvents (xhrRoute cfg creator params options).resolved ++
         (if isIncludeCred (getVal
             (objEntries (xhrRoute cfg creator params options).resolved) "credentials")
          then [XEvent.withCredentials] else [])) := by
    simp [xhrSendRequest, hmock, hbody, bodyIsStream]
  refine ⟨by rw [hsend], fun b => ?_⟩
  rw [hsend]
  exact xhrSend_not_mem_pre _ _ _ _ (by split <;> simp) b

/-- Witness for `streaming_body_rejected`: a route whose options carry a
`ReadableStream` body. -/
theorem streaming_body_rejected_witness :
    (xhrSendRequest
        (xhrRoute ⟨none, none, none⟩
          (fun _ => ⟨"/upload", some (.vObj [("body", .vStream)]), none,
            fun r _ _ => r⟩)
          .vNull none)
        false [] (.loadend 200 .vNull)).1 =
      .error (.thrown (makeLogMessage "Cannot send readable stream via XMLHTTPRequest")) :=
  (streaming_body_rejected ⟨none, none, none⟩
    (fun _ => ⟨"/upload", some (.vObj [("body", .vStream)]), none, fun r _ _ => r⟩)
    .vNull none false [] (.loadend 200 .vNull)
    rfl
    (by simp [xhrRoute, resolveRequestParams, getSharedRequestOptions,
      DEFAULTS_requestInit, deepMerge, mergeInto, jsEntries, getVal, setKey,
      copyEntries, isObjTruthy, objEntries])).1

/-! ### C10: the mock decision happens at send time -/

/-- **C10** (confirmed).  In the XHR variant, the route invocation
(`xhrRoute`) only prepares data: the mock descriptors and the mock-mode
flag are consulted, and the transport opened, only inside `sendRequest`
(the prepared value does not depend on the flag — the flag is an input
of `xhrSendRequest` alone).  For any prepared call and any flag value at
send time: if the mock resolver yields a handler, `sendRequest` returns
that handler's result on the call's params with no transport activity
at all; if it yields none, the very first transport activity is the
`open`, performed inside `sendRequest`. -/
theorem xhr_mock_resolved_at_send_time (cfg : APIMakerConfig)
    (creator : JValue → XHRRouteDef) (params : JValue)
    (options : Option XHRCallOptions) (reg : StatusRegistry) (outcome : XHROutcome)
    (m : Bool) :
    (∀ h, getMockHandler m (xhrRoute cfg creator params options).callMock
        (xhrRoute cfg creator params options).routeMock = .ok (some h) →
      xhrSendRequest (xhrRoute cfg creator params options) m reg outcome =
        (.ok (h params), [])) ∧
    (getMockHandler m (xhrRoute cfg creator params options).callMock
        (xhrRoute cfg creator params options).routeMock = .ok none →
      (xhrSendRequest (xhrRoute cfg creator params options) m reg outcome).2.head? =
        some (.xhrOpen
          ((getVal (objEntries (xhrRoute cfg creator params options).resolved)
            "method").getD (.vStr "GET"))
          (getFullPath cfg.base (creator params).path))) := by
  constructor
  · intro h hres
    simp only [xhrRoute] at hres
    simp [xhrSendRequest, hres, xhrRoute]
  · intro hres
    simp only [xhrRoute] at hres
    simp only [xhrSendRequest, xhrRoute, hres]
    split
    · simp
    · cases outcome <;> simp

/-- Witness for `xhr_mock_resolved_at_send_time`: one prepared call with
a route-level mock handler and no `enabled` flags; with the flag on at
send time the mock result is returned with no events, with the flag off
the first event is the transport `open`. -/
theorem xhr_mock_resolved_at_send_time_witness :
    xhrSendRequest
        (xhrRoute ⟨none, none, none⟩
          (fun _ => ⟨"/users/1", none, some ⟨none, some fun _ => .vStr "M"⟩,
            fun r _ _ => r⟩)
          .vNull none)
        true [] (.loadend 200 .vNull) =
      (.ok (.vStr "M"), []) ∧
    (xhrSendRequest
        (xhrRoute ⟨none, none, none⟩
          (fun _ => ⟨"/users/1", none, some ⟨none, some fun _ => .vStr "M"⟩,
            fun r _ _ => r⟩)
          .vNull none)
        false [] (.loadend 200 .vNull)).2.head? =
      some (.xhrOpen (.vStr "GET") "/users/1") := by
  constructor
  · exact (xhr_mock_resolved_at_send_time ⟨none, none, none⟩
      (fun _ => ⟨"/users/1", none, some ⟨none, some fun _ => .vStr "M"⟩, fun r _ _ => r⟩)
      .vNull none [] (.loadend 200 .vNull) true).1 (fun _ => .vStr "M") rfl
  · have h := (xhr_mock_resolved_at_send_time ⟨none, none, none⟩
      (fun _ => ⟨"/users/1", none, some ⟨none, some fun _ => .vStr "M"⟩, fun r _ _ => r⟩)
      .vNull none [] (.loadend 200 .vNull) false).2 rfl
    simpa [xhrRoute, resolveRequestParams, getSharedRequestOptions, DEFAULTS_requestInit,
      deepMerge, mergeInto, jsEntries, getVal, setKey, copyEntries, isObjTruthy,
      objEntries, getFullPath] using h

end ApiMaker
